import Mathlib

/-!
Verification of the valuation engine of an equity-research application
(class `EquityValuation` in `valuation_functions.py`).

The numerical pipeline is embedded over exact rational arithmetic (`ℚ`):
every Python float expression of the source is translated term by term.
Missing fundamentals keys are modelled with `Option ℚ`, and the Python
`dict.get(key, default)` idiom becomes `Option.getD`.  A Python function
that can raise and is wrapped in `try/except` returning `None` becomes a
Lean function returning `Option`.
-/

namespace EquityValuation

/-- Snapshot of the scalar company fundamentals used by the engine
(the `self.info` mapping).  A `none` field models an absent key. -/
structure FundamentalsSnapshot where
  currentPrice : Option ℚ := none
  marketCap : Option ℚ := none
  sharesOutstanding : Option ℚ := none
  totalDebt : Option ℚ := none
  cash : Option ℚ := none
  interestExpense : Option ℚ := none
  returnOnEquity : Option ℚ := none
  returnOnAssets : Option ℚ := none
  grossMargins : Option ℚ := none
  operatingMargins : Option ℚ := none
  profitMargins : Option ℚ := none
  payoutPercentRaw : Option ℚ := none
  deriving DecidableEq

/-- The percentage-valued ratios of `calculate_financial_ratios` that the
spec constrains.  Source keys: `roe`, `roa`, `gross_margin`,
`operating_margin`, `profit_margin`, `payout_ratio` (the last field is
named `payout_percent` here).  In the source an absent metric yields
`nan * 100 = nan`; `nan` is modelled as `none`. -/
structure RatioSet where
  roe : Option ℚ
  roa : Option ℚ
  gross_margin : Option ℚ
  operating_margin : Option ℚ
  profit_margin : Option ℚ
  payout_percent : Option ℚ
  deriving DecidableEq

/-- Lines 61-65 and 85 of `calculate_financial_ratios`: each percentage
ratio is the raw fundamentals metric multiplied by 100. -/
def calculate_financial_ratios (info : FundamentalsSnapshot) : RatioSet :=
  { roe := info.returnOnEquity.map (fun v => v * 100)
    roa := info.returnOnAssets.map (fun v => v * 100)
    gross_margin := info.grossMargins.map (fun v => v * 100)
    operating_margin := info.operatingMargins.map (fun v => v * 100)
    profit_margin := info.profitMargins.map (fun v => v * 100)
    payout_percent := info.payoutPercentRaw.map (fun v => v * 100) }

/-- Result of `calculate_wacc`.  The normal path returns all five keys;
the `except` fallback path returns a dict without the weight keys, hence
the weights are `Option ℚ`. -/
structure WaccResult where
  wacc : ℚ
  cost_of_equity : ℚ
  cost_of_debt : ℚ
  equity_weight : Option ℚ
  debt_weight : Option ℚ
  deriving DecidableEq

/-- Embedding of `calculate_wacc(beta, cost_of_debt, tax_rate)`.
`rf` and `mr` are the instance fields `risk_free_rate` and
`market_return`.  The only statement inside the `try` block that can
raise on numeric data is the weight division by `market_cap + total_debt`
(line 148); the `except` branch (lines 162-163) therefore fires exactly
when that sum is zero, returning the fixed fallback mapping. -/
def calculate_wacc (rf mr : ℚ) (info : FundamentalsSnapshot) (beta : ℚ)
    (cost_of_debt? : Option ℚ) (tax_rate : ℚ) : WaccResult :=
  let cost_of_equity := rf + beta * (mr - rf)
  let cod :=
    match cost_of_debt? with
    | some c => c
    | none =>
        let interest_expense := info.interestExpense.getD 0
        let total_debt := info.totalDebt.getD 1
        if 0 < total_debt then interest_expense / total_debt else 0.06
  let market_cap := info.marketCap.getD 1
  let total_debt := info.totalDebt.getD 0
  if market_cap + total_debt = 0 then
    { wacc := 0.09, cost_of_equity := 0.10, cost_of_debt := 0.06
      equity_weight := none, debt_weight := none }
  else
    let equity_weight := market_cap / (market_cap + total_debt)
    let debt_weight := total_debt / (market_cap + total_debt)
    { wacc := equity_weight * cost_of_equity + debt_weight * cod * (1 - tax_rate)
      cost_of_equity := cost_of_equity
      cost_of_debt := cod
      equity_weight := some equity_weight
      debt_weight := some debt_weight }

/-- Lines 186-189: `fcff_projections`, the list
`[fcff * (1+g)^1, ..., fcff * (1+g)^years]`. -/
def fcffProjections (fcff growth_rate : ℚ) (years : ℕ) : List ℚ :=
  (List.range years).map (fun i => fcff * (1 + growth_rate) ^ (i + 1))

/-- Line 192: `terminal_fcff = fcff_projections[-1] * (1 + terminal_growth)`.
Indexing an empty list raises (caught by the enclosing `try`), hence `Option`. -/
def terminalFCFF (fcff growth_rate terminal_growth : ℚ) (years : ℕ) : Option ℚ :=
  (fcffProjections fcff growth_rate years).getLast?.map
    (fun last => last * (1 + terminal_growth))

/-- Line 193: `terminal_value = terminal_fcff / (wacc - terminal_growth)`.
There is no guard on the sign of `wacc - terminal_growth`. -/
def terminalValue (fcff growth_rate terminal_growth wacc : ℚ) (years : ℕ) : Option ℚ :=
  (terminalFCFF fcff growth_rate terminal_growth years).map
    (fun tf => tf / (wacc - terminal_growth))

/-- Lines 196-199: each projected FCFF discounted at `(1+wacc)^(i+1)`. -/
def presentValues (fcff growth_rate wacc : ℚ) (years : ℕ) : List ℚ :=
  (fcffProjections fcff growth_rate years).enum.map
    (fun p => p.2 / (1 + wacc) ^ (p.1 + 1))

/-- Lines 201-204: `enterprise_value = sum(present_values) + pv_terminal`
with `pv_terminal = terminal_value / (1+wacc)^years`. -/
def enterpriseValue (fcff growth_rate terminal_growth wacc : ℚ) (years : ℕ) : Option ℚ :=
  (terminalValue fcff growth_rate terminal_growth wacc years).map
    (fun tv => (presentValues fcff growth_rate wacc years).sum + tv / (1 + wacc) ^ years)

/-- The dict returned by `dcf_valuation` (lines 214-221). -/
structure DCFResult where
  intrinsic_value : ℚ
  enterprise_value : ℚ
  equity_value : ℚ
  current_fcff : ℚ
  wacc : ℚ
  margin_of_safety : ℚ
  deriving DecidableEq

/-- Embedding of the arithmetic of `dcf_valuation` (lines 186-221), given
the current FCFF (computed from the cash-flow statement at lines 176-178)
and the WACC (computed at lines 181-183).  Lines 207-212: net debt
defaults missing `totalDebt`/`cash` to 0, and a missing
`sharesOutstanding` is substituted by `1` via `self.info.get('sharesOutstanding', 1)`. -/
def dcf_valuation (info : FundamentalsSnapshot) (fcff wacc : ℚ)
    (growth_rate terminal_growth : ℚ) (years : ℕ) : Option DCFResult :=
  (enterpriseValue fcff growth_rate terminal_growth wacc years).map
    (fun ev =>
      let net_debt := info.totalDebt.getD 0 - info.cash.getD 0
      let equity_value := ev - net_debt
      let shares := info.sharesOutstanding.getD 1
      let intrinsic_value := equity_value / shares
      { intrinsic_value := intrinsic_value
        enterprise_value := ev
        equity_value := equity_value
        current_fcff := fcff
        wacc := wacc
        margin_of_safety :=
          (intrinsic_value - info.currentPrice.getD 0) / intrinsic_value * 100 })

/-- The recommendation labels of `get_summary` (Portuguese in the source:
COMPRAR = BUY, ACUMULAR = ACCUMULATE, VENDER = SELL, REDUZIR = REDUCE,
NEUTRO = NEUTRAL). -/
inductive Recommendation where
  | COMPRAR
  | ACUMULAR
  | VENDER
  | REDUZIR
  | NEUTRO
  deriving DecidableEq

/-- Lines 286-300: the cascaded `if/elif` mapping a discount percentage to
a recommendation label. -/
def recommend (discount : ℚ) : Recommendation :=
  if 20 < discount then .COMPRAR
  else if 10 < discount then .ACUMULAR
  else if discount < -20 then .VENDER
  else if discount < -10 then .REDUZIR
  else .NEUTRO

/-- The recommendation-related portion of the summary dict: the
`discount` and `recommendation` keys, absent when the guard at line 282
is not taken. -/
structure SummaryRec where
  discount : Option ℚ
  recommendation : Option Recommendation
  deriving DecidableEq

/-- Lines 279-300 of `get_summary`: `current_price` defaults a missing
`currentPrice` to 0, `intrinsic_value` defaults to 0 when the DCF result
is unavailable, and the discount and recommendation are produced only
under the guard `intrinsic_value > 0`.  The sign of `current_price` is
never tested.  (At `current_price = 0` the source divides by zero; the
rational embedding is used only at nonzero prices.) -/
def get_summary_rec (info : FundamentalsSnapshot) (dcf : Option DCFResult) : SummaryRec :=
  let current_price := info.currentPrice.getD 0
  let intrinsic_value := (dcf.map DCFResult.intrinsic_value).getD 0
  if 0 < intrinsic_value then
    let discount := (intrinsic_value - current_price) / current_price * 100
    { discount := some discount, recommendation := some (recommend discount) }
  else
    { discount := none, recommendation := none }

/-- The recommendation mapping exactly as the specification words it
(§4.5): BUY above 20, ACCUMULATE on (10, 20], SELL below −20, REDUCE on
[−20, −10), NEUTRAL otherwise.  Stated from the spec, to be compared
with `recommend` from the source. -/
def specRecommendationLabel (discount : ℚ) : Recommendation :=
  if 20 < discount then .COMPRAR
  else if 10 < discount ∧ discount ≤ 20 then .ACUMULAR
  else if discount < -20 then .VENDER
  else if -20 ≤ discount ∧ discount < -10 then .REDUZIR
  else .NEUTRO

/-- The source's cascaded `if/elif` agrees with the spec's piecewise label
mapping at every discount value. -/
lemma recommend_eq_specLabel (d : ℚ) : recommend d = specRecommendationLabel d := by
  unfold recommend specRecommendationLabel
  by_cases h1 : 20 < d
  · simp [h1]
  · by_cases h2 : 10 < d
    · have hle : d ≤ 20 := not_lt.mp h1
      simp [h1, h2, hle]
    · by_cases h3 : d < -20
      · simp [h1, h2, h3]
      · by_cases h4 : d < -10
        · have hge : -20 ≤ d := not_lt.mp h3
          simp [h1, h2, h3, h4, hge]
        · simp [h1, h2, h3, h4]

/-! Concrete fundamentals snapshots and DCF records used as inputs of the
closed theorems below. -/

/-- Snapshot with `sharesOutstanding` absent (for the DCF share-count
default). -/
def missingSharesSnap : FundamentalsSnapshot :=
  { sharesOutstanding := none, currentPrice := some 10 }

/-- Snapshot with a negative current price (for the summary
recommendation gate). -/
def negPriceSnap : FundamentalsSnapshot := { currentPrice := some (-10) }

/-- A DCF record with positive intrinsic value, paired with
`negPriceSnap`. -/
def negPriceDcf : DCFResult :=
  { intrinsic_value := 5, enterprise_value := 5, equity_value := 5
    current_fcff := 100, wacc := 0.09, margin_of_safety := 0 }

/-- Snapshot with a positive current price (recommendation witness). -/
def posPriceSnap : FundamentalsSnapshot := { currentPrice := some 100 }

/-- A DCF record with intrinsic value 150, paired with `posPriceSnap`. -/
def posPriceDcf : DCFResult :=
  { intrinsic_value := 150, enterprise_value := 150, equity_value := 150
    current_fcff := 100, wacc := 0.09, margin_of_safety := 0 }

/-- Snapshot with `totalDebt` absent but `interestExpense` present (for
the cost-of-debt estimation). -/
def missingDebtSnap : FundamentalsSnapshot :=
  { totalDebt := none, interestExpense := some 0.05, marketCap := some 50 }

/-- Snapshot with market cap 60 and total debt 40 (capital-structure
weights witness). -/
def weightsSnap : FundamentalsSnapshot :=
  { marketCap := some 60, totalDebt := some 40 }

/-- Snapshot with all six percentage-relevant metrics present. -/
def fullRatiosSnap : FundamentalsSnapshot :=
  { returnOnEquity := some 0.15, returnOnAssets := some 0.08
    grossMargins := some 0.42, operatingMargins := some 0.21
    profitMargins := some 0.12, payoutPercentRaw := some 0.3 }

/-- Snapshot whose market cap and total debt are both present and zero,
so the weight division at line 148 raises. -/
def zeroCapSnap : FundamentalsSnapshot :=
  { marketCap := some 0, totalDebt := some 0 }

/-! ## Claim theorems -/

/-- C1 counterexample: at FCFF = 100, growth 0.05, years 2, terminal
growth 0.03, wacc 0.09, the code's enterprise value is exactly
194250/109 ≈ 1782.11, which is NOT within 0.01 of the claimed 1781.97. -/
theorem dcf_example_ev_not_1781_97 :
    enterpriseValue 100 0.05 0.03 0.09 2 = some (194250/109) ∧
    ¬ (|(194250 : ℚ)/109 - 1781.97| ≤ 0.01) := by
  constructor
  · norm_num [enterpriseValue, terminalValue, terminalFCFF, presentValues, fcffProjections,
      List.range_succ, List.enum]
  · norm_num [abs_le]

/-- C1 (amended): with current FCFF = 100, growth_rate = 0.05, years = 2,
terminal_growth = 0.03 and wacc = 0.09, the projected flows are 105.0 and
110.25, terminal FCFF is 113.5575, terminal value is 1892.625, and the
enterprise value (each projected FCFF discounted by (1+wacc)^t plus the
terminal value discounted at t = 2) is 194250/109 ≈ 1782.11 within
0.01 (not 1781.97: the spec's hand-computed PV of the terminal value is
off by ≈ 0.14). -/
theorem dcf_example_values :
    fcffProjections 100 0.05 2 = [105, 110.25] ∧
    terminalFCFF 100 0.05 0.03 2 = some 113.5575 ∧
    terminalValue 100 0.05 0.03 0.09 2 = some 1892.625 ∧
    enterpriseValue 100 0.05 0.03 0.09 2 = some (194250/109) ∧
    |(194250 : ℚ)/109 - 1782.11| ≤ 0.01 := by
  refine ⟨?_, ?_, ?_, ?_, ?_⟩
  · norm_num [fcffProjections, List.range_succ]
  · norm_num [terminalFCFF, fcffProjections, List.range_succ]
  · norm_num [terminalValue, terminalFCFF, fcffProjections, List.range_succ]
  · norm_num [enterpriseValue, terminalValue, terminalFCFF, presentValues, fcffProjections,
      List.range_succ, List.enum]
  · norm_num [abs_le]

/-- C2: the terminal-value division at line 193 has no guard on the sign
of `wacc - terminal_growth`.  At FCFF = 100, growth 0.05, terminal growth
0.03, wacc = 0.02 < 0.03, years = 2, the code silently produces the
negative terminal value −11355.75 and `dcf_valuation` still returns a
numeric result (with negative enterprise value −182000/17 ≈ −10705.88)
instead of signalling a computation fault. -/
theorem dcf_unguarded_negative_terminal_value :
    terminalValue 100 0.05 0.03 0.02 2 = some (-11355.75) ∧
    (dcf_valuation {} 100 0.02 0.05 0.03 2).map DCFResult.enterprise_value =
      some (-182000/17) ∧
    (dcf_valuation {} 100 0.02 0.05 0.03 2).isSome = true := by
  refine ⟨?_, ?_, ?_⟩
  · norm_num [terminalValue, terminalFCFF, fcffProjections, List.range_succ]
  · norm_num [dcf_valuation, enterpriseValue, terminalValue, terminalFCFF, presentValues,
      fcffProjections, List.range_succ, List.enum]
  · norm_num [dcf_valuation, enterpriseValue, terminalValue, terminalFCFF, presentValues,
      fcffProjections, List.range_succ, List.enum]

/-- C3: with `sharesOutstanding` absent, `dcf_valuation` substitutes a
share count of 1 (line 211: `self.info.get('sharesOutstanding', 1)`) and
returns an intrinsic value per share equal to the whole equity value,
instead of failing. -/
theorem dcf_substitutes_one_share :
    missingSharesSnap.sharesOutstanding = none ∧
    (dcf_valuation missingSharesSnap 100 0.09 0.05 0.03 2).map DCFResult.intrinsic_value =
      some (194250/109) ∧
    (dcf_valuation missingSharesSnap 100 0.09 0.05 0.03 2).map DCFResult.equity_value =
      some (194250/109) := by
  refine ⟨rfl, ?_, ?_⟩ <;>
    norm_num [missingSharesSnap, dcf_valuation, enterpriseValue, terminalValue, terminalFCFF,
      presentValues, fcffProjections, List.range_succ, List.enum]

/-- C4: whenever `get_summary` derives a recommendation (positive stored
intrinsic value, nonzero current price), the discount equals
(intrinsic_value − current_price) / current_price × 100 and the label is
exactly the spec's piecewise mapping (BUY above 20, ACCUMULATE on
(10, 20], SELL below −20, REDUCE on [−20, −10), NEUTRAL otherwise). -/
theorem get_summary_recommendation_thresholds (info : FundamentalsSnapshot)
    (dcf : Option DCFResult) (hcp : info.currentPrice.getD 0 ≠ 0)
    (hiv : 0 < (dcf.map DCFResult.intrinsic_value).getD 0) :
    (get_summary_rec info dcf).discount =
      some (((dcf.map DCFResult.intrinsic_value).getD 0 - info.currentPrice.getD 0) /
        info.currentPrice.getD 0 * 100) ∧
    (get_summary_rec info dcf).recommendation =
      some (specRecommendationLabel
        (((dcf.map DCFResult.intrinsic_value).getD 0 - info.currentPrice.getD 0) /
          info.currentPrice.getD 0 * 100)) := by
  unfold get_summary_rec
  rw [if_pos hiv]
  refine ⟨rfl, ?_⟩
  show some (recommend (((dcf.map DCFResult.intrinsic_value).getD 0 - info.currentPrice.getD 0) /
      info.currentPrice.getD 0 * 100)) = _
  rw [recommend_eq_specLabel]

/-- C4 witness: at current price 100 and intrinsic value 150 the discount
is 50 and the label is COMPRAR. -/
theorem get_summary_recommendation_thresholds_witness :
    (get_summary_rec posPriceSnap (some posPriceDcf)).discount =
      some ((((some posPriceDcf).map DCFResult.intrinsic_value).getD 0 -
        posPriceSnap.currentPrice.getD 0) / posPriceSnap.currentPrice.getD 0 * 100) ∧
    (get_summary_rec posPriceSnap (some posPriceDcf)).recommendation =
      some (specRecommendationLabel
        ((((some posPriceDcf).map DCFResult.intrinsic_value).getD 0 -
          posPriceSnap.currentPrice.getD 0) / posPriceSnap.currentPrice.getD 0 * 100)) :=
  get_summary_recommendation_thresholds posPriceSnap (some posPriceDcf)
    (by norm_num [posPriceSnap]) (by norm_num [posPriceDcf])

/-- C5 counterexample: with current price −10 (so current_price ≤ 0) and
a positive intrinsic value 5, `get_summary` still derives a
recommendation (VENDER, since the discount is −150): the code only tests
`intrinsic_value > 0` and never the sign of the price. -/
theorem negative_price_still_recommends :
    negPriceSnap.currentPrice.getD 0 < 0 ∧
    (get_summary_rec negPriceSnap (some negPriceDcf)).recommendation =
      some Recommendation.VENDER := by
  constructor
  · norm_num [negPriceSnap]
  · norm_num [get_summary_rec, recommend, negPriceSnap, negPriceDcf]

/-- C5 (amended): for any nonzero current price, `get_summary` carries a
recommendation and a discount exactly when the stored intrinsic value
(0 when the DCF result is unavailable) is strictly positive; the sign of
the current price is not consulted, and when the intrinsic value is
unavailable or non-positive the summary contains neither key. -/
theorem recommendation_iff_positive_intrinsic (info : FundamentalsSnapshot)
    (dcf : Option DCFResult) (hcp : info.currentPrice.getD 0 ≠ 0) :
    ((get_summary_rec info dcf).recommendation.isSome ↔
      0 < (dcf.map DCFResult.intrinsic_value).getD 0) ∧
    ((get_summary_rec info dcf).discount.isSome ↔
      0 < (dcf.map DCFResult.intrinsic_value).getD 0) := by
  unfold get_summary_rec
  rcases lt_or_le 0 ((dcf.map DCFResult.intrinsic_value).getD 0) with h | h
  · rw [if_pos h]
    exact ⟨by simpa using h, by simpa using h⟩
  · rw [if_neg (not_lt.mpr h)]
    exact ⟨by simpa using not_lt.mpr h, by simpa using not_lt.mpr h⟩

/-- C5 witness: at current price −10 and intrinsic value 5 the
equivalence is instantiated with a nonzero (negative) price. -/
theorem recommendation_iff_positive_intrinsic_witness :
    ((get_summary_rec negPriceSnap (some negPriceDcf)).recommendation.isSome ↔
      0 < ((some negPriceDcf).map DCFResult.intrinsic_value).getD 0) ∧
    ((get_summary_rec negPriceSnap (some negPriceDcf)).discount.isSome ↔
      0 < ((some negPriceDcf).map DCFResult.intrinsic_value).getD 0) :=
  recommendation_iff_positive_intrinsic negPriceSnap (some negPriceDcf)
    (by norm_num [negPriceSnap])

/-- C6 counterexample: with `totalDebt` absent and `interestExpense`
0.05, the estimated cost of debt is 0.05, not the claimed default 0.06:
line 140 substitutes 1 for a missing total debt, so the guard
`total_debt > 0` passes and the code divides by 1. -/
theorem missing_total_debt_cost_of_debt :
    missingDebtSnap.totalDebt = none ∧
    (calculate_wacc 0.045 0.09 missingDebtSnap 1 none 0.34).cost_of_debt = 0.05 ∧
    (0.05 : ℚ) ≠ 0.06 := by
  refine ⟨rfl, ?_, by norm_num⟩
  norm_num [calculate_wacc, missingDebtSnap]

/-- C6 (amended): on the non-fault path of `calculate_wacc` with no
supplied cost of debt, the cost of debt equals
interest_expense / total_debt when total debt is present and positive,
defaults to exactly 0.06 only when total debt is present and
non-positive, and equals the raw interest expense (0 when that is also
missing) when total debt is absent, because a missing total debt is
substituted by 1. -/
theorem cost_of_debt_estimation (rf mr : ℚ) (info : FundamentalsSnapshot)
    (beta tax : ℚ)
    (hexc : info.marketCap.getD 1 + info.totalDebt.getD 0 ≠ 0) :
    (info.totalDebt = none →
      (calculate_wacc rf mr info beta none tax).cost_of_debt =
        info.interestExpense.getD 0) ∧
    (∀ td, info.totalDebt = some td → 0 < td →
      (calculate_wacc rf mr info beta none tax).cost_of_debt =
        info.interestExpense.getD 0 / td) ∧
    (∀ td, info.totalDebt = some td → td ≤ 0 →
      (calculate_wacc rf mr info beta none tax).cost_of_debt = 0.06) := by
  unfold calculate_wacc
  rw [if_neg hexc]
  refine ⟨fun h => ?_, fun td h htd => ?_, fun td h htd => ?_⟩
  · simp [h]
  · simp [h, htd]
  · simp [h, not_lt.mpr htd]

/-- C6 witness: instantiated at the snapshot with absent total debt and
interest expense 0.05. -/
theorem cost_of_debt_estimation_witness :
    (missingDebtSnap.totalDebt = none →
      (calculate_wacc 0.045 0.09 missingDebtSnap 1 none 0.34).cost_of_debt =
        missingDebtSnap.interestExpense.getD 0) ∧
    (∀ td, missingDebtSnap.totalDebt = some td → 0 < td →
      (calculate_wacc 0.045 0.09 missingDebtSnap 1 none 0.34).cost_of_debt =
        missingDebtSnap.interestExpense.getD 0 / td) ∧
    (∀ td, missingDebtSnap.totalDebt = some td → td ≤ 0 →
      (calculate_wacc 0.045 0.09 missingDebtSnap 1 none 0.34).cost_of_debt = 0.06) :=
  cost_of_debt_estimation 0.045 0.09 missingDebtSnap 1 0.34
    (by norm_num [missingDebtSnap])

/-- C7: whenever the resolved market cap plus total debt is positive,
`calculate_wacc` takes the normal path and the two capital-structure
weights it returns sum to 1 within 1e-9 (in exact arithmetic they sum to
exactly 1). -/
theorem wacc_weights_sum_to_one (rf mr : ℚ) (info : FundamentalsSnapshot)
    (beta : ℚ) (cost_of_debt? : Option ℚ) (tax : ℚ)
    (h : 0 < info.marketCap.getD 1 + info.totalDebt.getD 0) :
    ∃ ew dw, (calculate_wacc rf mr info beta cost_of_debt? tax).equity_weight = some ew ∧
      (calculate_wacc rf mr info beta cost_of_debt? tax).debt_weight = some dw ∧
      |ew + dw - 1| ≤ 1/1000000000 := by
  have hne : info.marketCap.getD 1 + info.totalDebt.getD 0 ≠ 0 := ne_of_gt h
  unfold calculate_wacc
  rw [if_neg hne]
  refine ⟨_, _, rfl, rfl, ?_⟩
  rw [div_add_div_same, div_self hne]
  simp

/-- C7 witness: with market cap 60 and total debt 40 the weights are
returned and sum to 1. -/
theorem wacc_weights_sum_to_one_witness :
    ∃ ew dw, (calculate_wacc 0.045 0.09 weightsSnap 1.2 none 0.34).equity_weight = some ew ∧
      (calculate_wacc 0.045 0.09 weightsSnap 1.2 none 0.34).debt_weight = some dw ∧
      |ew + dw - 1| ≤ 1/1000000000 :=
  wacc_weights_sum_to_one 0.045 0.09 weightsSnap 1.2 none 0.34
    (by norm_num [weightsSnap])

/-- C8: whenever the underlying fundamentals metric is present, each
percentage-valued ratio of `calculate_financial_ratios` (roe, roa,
gross margin, operating margin, profit margin, payout) equals the raw
fraction times 100. -/
theorem percentage_ratios_scale_by_100 (info : FundamentalsSnapshot)
    (v₁ v₂ v₃ v₄ v₅ v₆ : ℚ)
    (h₁ : info.returnOnEquity = some v₁) (h₂ : info.returnOnAssets = some v₂)
    (h₃ : info.grossMargins = some v₃) (h₄ : info.operatingMargins = some v₄)
    (h₅ : info.profitMargins = some v₅) (h₆ : info.payoutPercentRaw = some v₆) :
    (calculate_financial_ratios info).roe = some (v₁ * 100) ∧
    (calculate_financial_ratios info).roa = some (v₂ * 100) ∧
    (calculate_financial_ratios info).gross_margin = some (v₃ * 100) ∧
    (calculate_financial_ratios info).operating_margin = some (v₄ * 100) ∧
    (calculate_financial_ratios info).profit_margin = some (v₅ * 100) ∧
    (calculate_financial_ratios info).payout_percent = some (v₆ * 100) := by
  simp [calculate_financial_ratios, h₁, h₂, h₃, h₄, h₅, h₆]

/-- C8 witness: instantiated at a snapshot with all six metrics present
(e.g. returnOnEquity 0.15 yields roe 15). -/
theorem percentage_ratios_scale_by_100_witness :
    (calculate_financial_ratios fullRatiosSnap).roe = some (0.15 * 100) ∧
    (calculate_financial_ratios fullRatiosSnap).roa = some (0.08 * 100) ∧
    (calculate_financial_ratios fullRatiosSnap).gross_margin = some (0.42 * 100) ∧
    (calculate_financial_ratios fullRatiosSnap).operating_margin = some (0.21 * 100) ∧
    (calculate_financial_ratios fullRatiosSnap).profit_margin = some (0.12 * 100) ∧
    (calculate_financial_ratios fullRatiosSnap).payout_percent = some (0.3 * 100) :=
  percentage_ratios_scale_by_100 fullRatiosSnap 0.15 0.08 0.42 0.21 0.12 0.3
    rfl rfl rfl rfl rfl rfl

/-- C10: when the weight division of `calculate_wacc` raises (resolved
market cap plus total debt equal to zero, the only fallible numeric step
inside the `try` block), the returned fallback mapping is exactly
wacc 0.09, cost of equity 0.10, cost of debt 0.06, with no equity-weight
or debt-weight entries. -/
theorem wacc_exception_fallback (rf mr : ℚ) (info : FundamentalsSnapshot)
    (beta : ℚ) (cost_of_debt? : Option ℚ) (tax : ℚ)
    (h : info.marketCap.getD 1 + info.totalDebt.getD 0 = 0) :
    calculate_wacc rf mr info beta cost_of_debt? tax =
      { wacc := 0.09, cost_of_equity := 0.10, cost_of_debt := 0.06
        equity_weight := none, debt_weight := none } := by
  unfold calculate_wacc
  simp [h]

/-- C10 witness: instantiated at a snapshot with market cap 0 and total
debt 0. -/
theorem wacc_exception_fallback_witness :
    calculate_wacc 0.045 0.09 zeroCapSnap 1 none 0.34 =
      { wacc := 0.09, cost_of_equity := 0.10, cost_of_debt := 0.06
        equity_weight := none, debt_weight := none } :=
  wacc_exception_fallback 0.045 0.09 zeroCapSnap 1 none 0.34
    (by norm_num [zeroCapSnap])

end EquityValuation
